import Mathlib

/-!
Verification development for the AcctForecast uploader (src/upload.py).

The script reads a fixed local HTML file, injects a build timestamp before
the closing body tag, resolves a Neocities API key from an environment
variable or a local file, and uploads the result through an external client,
deleting and re-uploading once when the server reports that the file already
exists.  The shallow embedding below models the Python string operations on
List Char, the credential resolution as a pure function over the two possible
key sources, and one run of main as a pure function from a World of oracle
responses (filesystem contents, clock, client results) to the list of printed
messages, the list of remote calls attempted, and a termination outcome.
-/

namespace AcctForecast

/-- Python strings are modelled as lists of characters. -/
abbrev Str := List Char

/-- The ASCII whitespace characters stripped by Python str.strip()
(the Unicode additions are irrelevant to this program). -/
def pyIsSpace (c : Char) : Bool :=
  c = ' ' || c = '\t' || c = '\n' || c = '\r' || c = '\x0b' || c = '\x0c'

/-- Python str.strip(): remove leading and trailing whitespace. -/
def pyStrip (s : Str) : Str :=
  ((s.dropWhile pyIsSpace).reverse.dropWhile pyIsSpace).reverse

/-- Python substring test (the `in` operator): p occurs somewhere in s. -/
def containsSub (p : Str) : Str → Bool
  | [] => p.isEmpty
  | c :: cs => p.isPrefixOf (c :: cs) || containsSub p cs

/-- Number of positions of s at which p occurs (used to count injected
markers in a produced document). -/
def countOcc (p : Str) : Str → Nat
  | [] => 0
  | c :: cs => (if p.isPrefixOf (c :: cs) then 1 else 0) + countOcc p cs

/-- Fuelled worker for pyReplace.  At each position: if the (non-empty)
pattern p starts here, emit r and continue after the matched pattern,
otherwise keep the character.  The fuel starts at the length of the input,
which one fuel unit per consumed character makes sufficient, so the
fuel-exhausted arm is never reached from pyReplace. -/
def pyReplaceAux (p r : Str) : Nat → Str → Str
  | _, [] => []
  | 0, s => s
  | f + 1, c :: cs =>
    if p.isPrefixOf (c :: cs) then
      r ++ pyReplaceAux p r f (List.drop (p.length - 1) cs)
    else
      c :: pyReplaceAux p r f cs

/-- Python str.replace(p, r) for a non-empty pattern p: replace every
non-overlapping occurrence of p, scanning left to right, never rescanning
the replacement text. -/
def pyReplace (p r s : Str) : Str :=
  pyReplaceAux p r s.length s

/-- Fuelled worker for insertBeforeOccs, with the same recursion structure
as pyReplaceAux. -/
def insertBeforeOccsAux (p ins : Str) : Nat → Str → Str
  | _, [] => []
  | 0, s => s
  | f + 1, c :: cs =>
    if p.isPrefixOf (c :: cs) then
      ins ++ p ++ insertBeforeOccsAux p ins f (List.drop (p.length - 1) cs)
    else
      c :: insertBeforeOccsAux p ins f cs

/-- Modelled from the spec sentence about marker placement: the source
content with ins inserted immediately before every occurrence of p, the
rest of the content unchanged.  Used to compare the timestamp-injection
step of the code against the wording of the specification. -/
def insertBeforeOccs (p ins s : Str) : Str :=
  insertBeforeOccsAux p ins s.length s

/-- The closing body tag searched for by the script. -/
def bodyTag : Str := "</body>".data

/-- timestamp_html in the script: the marker followed by a closing body
tag, the replacement text for each occurrence of the tag. -/
def timestampHtml (ts : Str) : Str :=
  "<pre>Updated: ".data ++ ts ++ "</pre>\n</body>".data

/-- The text appended when no closing body tag is present. -/
def appendSnippet (ts : Str) : Str :=
  "\n<pre>Updated: ".data ++ ts ++ "</pre>".data

/-- The timestamp-injection step of the script (lines 61-69 of upload.py):
if the content contains the closing body tag, replace it (str.replace, i.e.
every occurrence) with the marker text, otherwise append the marker at the
end of the file. -/
def buildContent (content ts : Str) : Str :=
  if containsSub bodyTag content then
    pyReplace bodyTag (timestampHtml ts) content
  else
    content ++ appendSnippet ts

/-- Fuelled unpadded decimal rendering of a natural number, most significant
digit first; the fuel-exhausted arm is unreachable when the fuel is at least
the value, which natDecimal arranges. -/
def natDecimalAux : Nat → Nat → Str
  | 0, n => [Nat.digitChar (n % 10)]
  | f + 1, n =>
    if n < 10 then [Nat.digitChar n]
    else natDecimalAux f (n / 10) ++ [Nat.digitChar (n % 10)]

/-- Unpadded decimal rendering, the behaviour of strftime %Y on the
platform the script targets. -/
def natDecimal (n : Nat) : Str := natDecimalAux n n

/-- strftime %02d style field: two digits, zero padded, falling back to the
full decimal for values of 100 or more (datetime field invariants keep all
uses below 100). -/
def twoDigits (n : Nat) : Str :=
  if n < 100 then [Nat.digitChar (n / 10), Nat.digitChar (n % 10)]
  else natDecimal n

/-- The broken-down UTC time produced by datetime.now(timezone.utc);
datetime guarantees 1 <= year <= 9999, 1 <= month <= 12, 1 <= day <= 31,
hour <= 23, minute <= 59, second <= 59. -/
structure UTCDateTime where
  year : Nat
  month : Nat
  day : Nat
  hour : Nat
  minute : Nat
  second : Nat
deriving DecidableEq

/-- now_utc.strftime of the format string used by the script:
year, month, day, hour, minute, second joined by the literal separators,
with a Z suffix. -/
def strftimeTimestamp (d : UTCDateTime) : Str :=
  natDecimal d.year ++ '-' :: twoDigits d.month ++ '-' :: twoDigits d.day
    ++ 'T' :: twoDigits d.hour ++ ':' :: twoDigits d.minute
    ++ ':' :: twoDigits d.second ++ ['Z']

/-- Decidable matcher for the regular expression
4 digits, dash, 2 digits, dash, 2 digits, T, 2 digits, colon, 2 digits,
colon, 2 digits, Z, anchored at both ends. -/
def matchesTsFormat : Str → Bool
  | [y1, y2, y3, y4, s1, a1, a2, s2, b1, b2, s3, c1, c2, s4, e1, e2, s5, f1, f2, s6] =>
    y1.isDigit && y2.isDigit && y3.isDigit && y4.isDigit && (s1 == '-')
      && a1.isDigit && a2.isDigit && (s2 == '-') && b1.isDigit && b2.isDigit
      && (s3 == 'T') && c1.isDigit && c2.isDigit && (s4 == ':')
      && e1.isDigit && e2.isDigit && (s5 == ':') && f1.isDigit && f2.isDigit
      && (s6 == 'Z')
  | _ => false

/-- Where the API key was found, recorded by the script as key_source. -/
inductive CredSource where
  | envVar
  | keyFile
deriving DecidableEq

/-- Result of the credential-resolution step (lines 32-45 of upload.py). -/
inductive CredResult where
  | ok (key : Str) (src : CredSource)
  | readError (msg : Str)
  | missing
deriving DecidableEq

/-- The fallback part of credential resolution: the apikey file is either
absent, unreadable with an error message, or readable with some content,
which is stripped of surrounding whitespace and rejected if empty. -/
def resolveFromFile : Option (Except Str Str) → CredResult
  | none => CredResult.missing
  | some (Except.error e) => CredResult.readError e
  | some (Except.ok c) =>
    if pyStrip c = [] then CredResult.missing
    else CredResult.ok (pyStrip c) CredSource.keyFile

/-- Credential resolution: os.getenv gives none when the variable is unset;
a set variable is used only when non-empty (Python truthiness of the string),
otherwise the script falls back to the apikey file. -/
def resolveCred (env : Option Str) (file : Option (Except Str Str)) : CredResult :=
  match env with
  | some k => if k = [] then resolveFromFile file else CredResult.ok k CredSource.envVar
  | none => resolveFromFile file

/-- The exceptions (all derived from Python Exception) that the fallible
steps inside the try block can raise: the client OpFailedError and
AuthenticationError, and any other exception carrying its type name and
message. -/
inductive PyExc where
  | opFailed (msg : Str)
  | authError (msg : Str)
  | other (tyName : Str) (msg : Str)
deriving DecidableEq

/-- type(e).__name__ for a modelled exception. -/
def excTypeName : PyExc → Str
  | PyExc.opFailed _ => "OpFailedError".data
  | PyExc.authError _ => "AuthenticationError".data
  | PyExc.other ty _ => ty

/-- str(e) for a modelled exception. -/
def excMsg : PyExc → Str
  | PyExc.opFailed m => m
  | PyExc.authError m => m
  | PyExc.other _ m => m

/-- One line standing for the output of traceback.print_exc: the stack
text ends with the exception type and message; the frames themselves are
fixed program text independent of all run data. -/
def tracebackLine (e : PyExc) : Str :=
  "Traceback (most recent call last): ".data ++ excTypeName e
    ++ ": ".data ++ excMsg e

/-- A remote-client call attempted during the run. -/
inductive Event where
  | login (key : Str)
  | uploadText (dest : Str) (content : Str)
  | delete (dest : Str)
deriving DecidableEq

/-- Whether the process returned normally from main or an exception
escaped the entry point. -/
inductive Outcome where
  | normal
  | crashed (e : PyExc)
deriving DecidableEq

/-- Observable result of one run of main: the printed lines in order, the
remote calls attempted in order, and the termination outcome. -/
structure MainRes where
  printed : List Str
  events : List Event
  outcome : Outcome
deriving DecidableEq

/-- The parsed CLI arguments: positional sitename, destination defaulted
to index.html by argparse. -/
structure Args where
  sitename : Str
  destination : Str
deriving DecidableEq

/-- The oracle data a run consumes: the source file (absent, unreadable
with an OS error given by type name and message, or readable with some
content -- reading raises OS-level errors, never the client exception
types), the environment variable, the apikey file, the clock, and the
outcome of each remote call in the order the script can make them. -/
structure World where
  source : Option (Except (Str × Str) Str)
  env : Option Str
  keyFile : Option (Except Str Str)
  now : UTCDateTime
  loginResult : Except PyExc Unit
  upload1 : Except PyExc Unit
  deleteResult : Except PyExc Unit
  upload2 : Except PyExc Unit

/-- The marker substring of an already-exists upload failure. -/
def conflictMarker : Str := "failed to store files".data

def msgSourceNotFound : Str :=
  "Error: Source file 'accountforecast.html' not found.".data

def msgCredReadError (e : Str) : Str :=
  "Error: Could not read 'apikey': ".data ++ e

def msgKeyMissing : Str := "Error: API key not found.".data

/-- The key_source text interpolated into the confirmation message. -/
def keySourceText : CredSource → Str
  | CredSource.envVar => "environment variable".data
  | CredSource.keyFile => "local 'apikey' file".data

def msgLoaded (s : CredSource) : Str :=
  "Successfully loaded API key from ".data ++ keySourceText s ++ ".".data

def msgReading : Str := "Reading content from 'accountforecast.html'...".data

/-- The line printed by the injection step: the injecting message when a
closing body tag is present, the appending warning otherwise. -/
def injectionMsg (content ts : Str) : Str :=
  if containsSub bodyTag content then "Injecting timestamp: ".data ++ ts
  else "Warning: Closing </body> tag not found. Appending timestamp to end of file.".data

def msgUploading (a : Args) : Str :=
  "Uploading content to '".data ++ a.sitename ++ "' as '".data
    ++ a.destination ++ "'...".data

def msgUploadSuccess : Str := "Upload successful!".data

def msgViewLive (a : Args) : Str :=
  "View live at: https://".data ++ a.sitename ++ ".neocities.org/".data
    ++ a.destination

def msgFileExists : Str := "File exists. Attempting to replace it...".data

def msgReplaceSuccess : Str := "Replacement successful!".data

/-- The three lines printed by the inner except clause of the
delete-and-retry block. -/
def msgsReplaceFailed (e : PyExc) : List Str :=
  ["\n--- FAILED TO REPLACE FILE ---".data,
   "Error: ".data ++ excMsg e,
   tracebackLine e]

/-- The inner try of the already-exists branch: delete the destination;
on success upload the kept document once more; any exception in either
call is caught and reported, with no further attempt. -/
def conflictRecovery (w : World) (a : Args) (content : Str) : List Str × List Event :=
  match w.deleteResult with
  | Except.error de => (msgsReplaceFailed de, [Event.delete a.destination])
  | Except.ok _ =>
    match w.upload2 with
    | Except.error ue =>
      (msgsReplaceFailed ue,
       [Event.delete a.destination, Event.uploadText a.destination content])
    | Except.ok _ =>
      ([msgReplaceSuccess, msgViewLive a],
       [Event.delete a.destination, Event.uploadText a.destination content])

/-- The except OpFailedError clause: when the message contains the
already-exists marker, run the delete-and-retry recovery, otherwise report
the operation failure; none when the clause does not match the exception. -/
def clauseOpFailed (w : World) (a : Args) (content : Str) :
    PyExc → Option (List Str × List Event)
  | PyExc.opFailed m =>
    if containsSub conflictMarker m then
      some (msgFileExists :: (conflictRecovery w a content).1,
            (conflictRecovery w a content).2)
    else
      some (["\n--- OPERATION FAILED ---".data,
             "Server message: ".data ++ m,
             tracebackLine (PyExc.opFailed m)], [])
  | _ => none

/-- The except AuthenticationError clause. -/
def clauseAuth : PyExc → Option (List Str × List Event)
  | PyExc.authError m =>
    some (["\n--- AUTHENTICATION FAILED ---".data,
           "Server message: ".data ++ m], [])
  | _ => none

/-- The generic except Exception clause: matches every modelled exception. -/
def clauseGeneric (e : PyExc) : Option (List Str × List Event) :=
  some (["\n--- A CRITICAL ERROR OCCURRED ---".data,
         "Error Type: ".data ++ excTypeName e,
         "Error Message: ".data ++ excMsg e,
         tracebackLine e], [])

/-- The except-clause chain at the bottom of main, first matching clause
wins; none would mean the exception escapes uncaught. -/
def handleExc (w : World) (a : Args) (content : Str) (e : PyExc) :
    Option (List Str × List Event) :=
  Option.orElse (clauseOpFailed w a content e)
    (fun _ => Option.orElse (clauseAuth e) (fun _ => clauseGeneric e))

/-- Assemble the run result from the output accumulated before the raise,
the calls attempted before the raise, and the handler verdict: a matched
clause appends its output and calls and the process returns normally, an
unmatched exception escapes. -/
def finishWith (pre : List Str) (evPre : List Event)
    (r : Option (List Str × List Event)) (e : PyExc) : MainRes :=
  match r with
  | some pe => ⟨pre ++ pe.1, evPre ++ pe.2, Outcome.normal⟩
  | none => ⟨pre, evPre, Outcome.crashed e⟩

/-- The body of main from the confirmation print onward, given the
resolved key and its source and the source-file read outcome: read the
content (an OS-level read failure goes to the except chain), inject the
timestamp, construct the client, log in, upload, and dispatch any raised
exception to the except clauses. -/
def afterCred (w : World) (a : Args) (key : Str) (ksrc : CredSource)
    (srcRead : Except (Str × Str) Str) : MainRes :=
  match srcRead with
  | Except.error e =>
    finishWith [msgLoaded ksrc, msgReading] []
      (handleExc w a [] (PyExc.other e.1 e.2)) (PyExc.other e.1 e.2)
  | Except.ok content =>
    match w.loginResult with
    | Except.error e =>
      finishWith
        [msgLoaded ksrc, msgReading,
         injectionMsg content (strftimeTimestamp w.now)]
        [Event.login key]
        (handleExc w a (buildContent content (strftimeTimestamp w.now)) e) e
    | Except.ok _ =>
      match w.upload1 with
      | Except.error e =>
        finishWith
          [msgLoaded ksrc, msgReading,
           injectionMsg content (strftimeTimestamp w.now), msgUploading a]
          [Event.login key,
           Event.uploadText a.destination
             (buildContent content (strftimeTimestamp w.now))]
          (handleExc w a (buildContent content (strftimeTimestamp w.now)) e) e
      | Except.ok _ =>
        ⟨[msgLoaded ksrc, msgReading,
          injectionMsg content (strftimeTimestamp w.now), msgUploading a,
          msgUploadSuccess, msgViewLive a],
         [Event.login key,
          Event.uploadText a.destination
            (buildContent content (strftimeTimestamp w.now))],
         Outcome.normal⟩

/-- One run of main: the source-file existence check, credential
resolution with its three early exits, then the guarded body. -/
def pyMain (w : World) (a : Args) : MainRes :=
  match w.source with
  | none => ⟨[msgSourceNotFound], [], Outcome.normal⟩
  | some srcRead =>
    match resolveCred w.env w.keyFile with
    | CredResult.readError e => ⟨[msgCredReadError e], [], Outcome.normal⟩
    | CredResult.missing => ⟨[msgKeyMissing], [], Outcome.normal⟩
    | CredResult.ok key ksrc => afterCred w a key ksrc srcRead

/-! Concrete inputs used by the witness runs. -/

/-- Concrete CLI arguments for the witness runs. -/
def argsW : Args := ⟨"rake74".data, "index.html".data⟩

/-- A concrete clock value for the witness runs. -/
def nowW : UTCDateTime := ⟨2024, 5, 7, 12, 30, 45⟩

/-- A concrete source document with one closing body tag. -/
def srcW : Str := "<html><body>hi</body></html>".data

/-- A concrete upload failure message carrying the already-exists marker. -/
def conflictMsgW : Str := "neocities api: failed to store files".data

/-- A witness world whose source file is absent. -/
def w5 : World :=
  ⟨none, some ['k'], none, nowW,
   Except.ok (), Except.ok (), Except.ok (), Except.ok ()⟩

/-- A witness world whose first upload hits the already-exists conflict and
whose delete and retried upload succeed. -/
def w6 : World :=
  ⟨some (Except.ok srcW), some ['k'], none, nowW,
   Except.ok (), Except.error (PyExc.opFailed conflictMsgW),
   Except.ok (), Except.ok ()⟩

/-- The document w6 uploads: srcW stamped with the w6 clock. -/
def doc6 : Str := buildContent srcW (strftimeTimestamp nowW)

/-- Like w6 but the retried upload fails as well. -/
def w10 : World :=
  ⟨some (Except.ok srcW), some ['k'], none, nowW,
   Except.ok (), Except.error (PyExc.opFailed conflictMsgW),
   Except.ok (), Except.error (PyExc.opFailed ("store failed again".data))⟩

/-- A fully successful witness world with the key in the environment. -/
def w9 : World :=
  ⟨some (Except.ok srcW), some ['a'], none, nowW,
   Except.ok (), Except.ok (), Except.ok (), Except.ok ()⟩

/-! Helper lemmas. -/

/-- Replacing p by ins ++ p is the same as inserting ins before each
occurrence of p; the two fuelled workers share their recursion structure. -/
theorem pyReplaceAux_eq_insertAux (p ins : Str) (f : Nat) (s : Str) :
    pyReplaceAux p (ins ++ p) f s = insertBeforeOccsAux p ins f s := by
  induction f generalizing s with
  | zero => cases s <;> rfl
  | succ f ih =>
    cases s with
    | nil => rfl
    | cons c cs =>
      by_cases h : p.isPrefixOf (c :: cs) = true
      · simp [pyReplaceAux, insertBeforeOccsAux, h, ih, List.append_assoc]
      · simp [pyReplaceAux, insertBeforeOccsAux, h, ih]

/-- A value below ten renders as its single digit, whatever the fuel. -/
theorem natDecimalAux_lt_ten (f n : Nat) (h : n < 10) :
    natDecimalAux f n = [Nat.digitChar n] := by
  cases f with
  | zero => simp [natDecimalAux, Nat.mod_eq_of_lt h]
  | succ f => simp [natDecimalAux, h]

/-- One unfolding of the decimal rendering for a value of ten or more. -/
theorem natDecimalAux_ge_ten (f n : Nat) (hf : 1 ≤ f) (h : 10 ≤ n) :
    natDecimalAux f n = natDecimalAux (f - 1) (n / 10) ++ [Nat.digitChar (n % 10)] := by
  obtain ⟨g, rfl⟩ : ∃ g, f = g + 1 := ⟨f - 1, by omega⟩
  simp [natDecimalAux, Nat.not_lt.mpr h]

/-- A four-digit year renders as exactly its four decimal digits. -/
theorem natDecimal_four_digits (y : Nat) (h1 : 1000 ≤ y) (h2 : y < 10000) :
    natDecimal y
      = [Nat.digitChar (y / 1000), Nat.digitChar (y / 100 % 10),
         Nat.digitChar (y / 10 % 10), Nat.digitChar (y % 10)] := by
  unfold natDecimal
  rw [natDecimalAux_ge_ten y y (by omega) (by omega),
      natDecimalAux_ge_ten (y - 1) (y / 10) (by omega) (by omega),
      natDecimalAux_ge_ten (y - 1 - 1) (y / 10 / 10) (by omega) (by omega),
      natDecimalAux_lt_ten (y - 1 - 1 - 1) (y / 10 / 10 / 10) (by omega)]
  have e1 : y / 10 / 10 = y / 100 := by omega
  have e2 : y / 100 / 10 = y / 1000 := by omega
  rw [e1, e2]
  simp

/-- Nat.digitChar maps values below ten to ASCII digits. -/
theorem digitChar_isDigit (n : Nat) (h : n < 10) : (Nat.digitChar n).isDigit = true := by
  interval_cases n <;> decide

/-- Every modelled exception is matched by some except clause of main
(the generic except Exception clause catches whatever the two specific
clauses do not). -/
theorem handleExc_total (w : World) (a : Args) (c : Str) (e : PyExc) :
    handleExc w a c e ≠ none := by
  cases e with
  | opFailed m =>
    by_cases h : containsSub conflictMarker m = true <;>
      simp [handleExc, clauseOpFailed, h, Option.orElse]
  | authError m =>
    simp [handleExc, clauseOpFailed, clauseAuth, Option.orElse]
  | other ty m =>
    simp [handleExc, clauseOpFailed, clauseAuth, clauseGeneric, Option.orElse]

/-! Claims about the timestamp-injection step. -/

/-- Claim C1, counterexample: on a source with two closing body tags the
injection step inserts a marker before both occurrences (str.replace
replaces every occurrence), so the produced Document contains two markers,
not exactly one, and the second occurrence is not left untouched. -/
theorem replace_hits_every_body_occurrence :
    countOcc ("<pre>Updated: ".data)
        (buildContent ("<p></body><p></body>".data) ("2024-01-01T00:00:00Z".data)) = 2
    ∧ countOcc ("<pre>Updated: ".data)
        (buildContent ("<p></body><p></body>".data) ("2024-01-01T00:00:00Z".data)) ≠ 1 := by
  constructor
  · decide
  · decide

/-- Claim C1 as amended: for source content containing the closing body
tag, the Document built by the injection step is the source content with
one marker inserted immediately before every occurrence of the tag, the
rest of the content unchanged; in particular a source with a single
closing body tag receives exactly one marker, immediately before it. -/
theorem document_inserts_marker_before_each_body (content ts : Str)
    (h : containsSub bodyTag content = true) :
    buildContent content ts
      = insertBeforeOccs bodyTag
          ("<pre>Updated: ".data ++ ts ++ "</pre>\n".data) content := by
  have hcat : ("</pre>\n</body>".data : Str) = "</pre>\n".data ++ "</body>".data := by
    decide
  have hsplit : timestampHtml ts
      = ("<pre>Updated: ".data ++ ts ++ "</pre>\n".data) ++ bodyTag := by
    unfold timestampHtml bodyTag
    rw [hcat]
    simp [List.append_assoc]
  unfold buildContent insertBeforeOccs pyReplace
  simp only [h, if_true]
  rw [hsplit, pyReplaceAux_eq_insertAux]

/-- Witness for the amended claim C1 on a concrete document. -/
theorem document_inserts_marker_before_each_body_witness :
    containsSub bodyTag srcW = true
    ∧ buildContent srcW ("2024-01-01T00:00:00Z".data)
        = insertBeforeOccs bodyTag
            ("<pre>Updated: ".data ++ "2024-01-01T00:00:00Z".data ++ "</pre>\n".data)
            srcW :=
  ⟨by decide, document_inserts_marker_before_each_body _ _ (by decide)⟩

/-- Claim C2: for source content without a closing body tag, the Document
is exactly the source content with the newline-prefixed marker appended. -/
theorem no_body_tag_appends_marker (content ts : Str)
    (h : containsSub bodyTag content = false) :
    buildContent content ts
      = content ++ ("\n<pre>Updated: ".data ++ ts ++ "</pre>".data) := by
  unfold buildContent appendSnippet
  simp [h]

/-- Witness for claim C2 on a concrete document. -/
theorem no_body_tag_appends_marker_witness :
    containsSub bodyTag ("<html>hi".data) = false
    ∧ buildContent ("<html>hi".data) ("2024-01-01T00:00:00Z".data)
        = "<html>hi".data
          ++ ("\n<pre>Updated: ".data ++ "2024-01-01T00:00:00Z".data ++ "</pre>".data) :=
  ⟨by decide, no_body_tag_appends_marker _ _ (by decide)⟩

/-! Claims about credential resolution. -/

/-- Claim C3, counterexample: with the environment variable set to the
empty string and a readable credential file present, the script falls back
to the file (Python truthiness, not presence, guards the fallback), so the
file is read and its key is used, not the value of the set variable. -/
theorem empty_env_var_falls_back_to_file :
    resolveCred (some []) (some (Except.ok ['k']))
        = CredResult.ok ['k'] CredSource.keyFile
    ∧ resolveCred (some []) (some (Except.ok ['k']))
        ≠ CredResult.ok [] CredSource.envVar := by
  constructor
  · decide
  · decide

/-- Claim C3 as amended: whenever the environment variable is set to a
non-empty value, that value is used as the key and the credential file
plays no part (the result is the same for every state of the file). -/
theorem nonempty_env_var_takes_precedence (k : Str)
    (file : Option (Except Str Str)) (h : k ≠ []) :
    resolveCred (some k) file = CredResult.ok k CredSource.envVar := by
  simp [resolveCred, h]

/-- Witness for the amended claim C3 at a concrete environment and file. -/
theorem nonempty_env_var_takes_precedence_witness :
    (['x'] : Str) ≠ []
    ∧ resolveCred (some ['x']) (some (Except.ok ['y']))
        = CredResult.ok ['x'] CredSource.envVar :=
  ⟨by decide, nonempty_env_var_takes_precedence ['x'] _ (by decide)⟩

/-- Claim C4: resolution yields the CredentialMissing diagnostic exactly
when the environment variable is unset or empty and the credential file is
absent or reads successfully to a string that strips to empty.  A file
containing only whitespace therefore yields missing, not a read error,
while an unreadable file yields the distinct read-error diagnostic and is
outside both sides of this equivalence. -/
theorem credential_missing_iff (env : Option Str) (file : Option (Except Str Str)) :
    resolveCred env file = CredResult.missing ↔
      ((∀ k, env = some k → k = [])
       ∧ (file = none ∨ ∃ c, file = some (Except.ok c) ∧ pyStrip c = [])) := by
  cases env with
  | none =>
    cases file with
    | none => simp [resolveCred, resolveFromFile]
    | some r =>
      cases r with
      | error e => simp [resolveCred, resolveFromFile]
      | ok c =>
        by_cases h : pyStrip c = []
        · simp [resolveCred, resolveFromFile, h]
        · simp [resolveCred, resolveFromFile, h]
  | some k =>
    by_cases hk : k = []
    · subst hk
      cases file with
      | none => simp [resolveCred, resolveFromFile]
      | some r =>
        cases r with
        | error e => simp [resolveCred, resolveFromFile]
        | ok c =>
          by_cases h : pyStrip c = []
          · simp [resolveCred, resolveFromFile, h]
          · simp [resolveCred, resolveFromFile, h]
    · simp [resolveCred, hk]

/-! Claim about the timestamp format. -/

/-- Claim C7: for any clock reading with a four-digit year (datetime keeps
the year at most 9999, and any current instant is past the year 1000) and
in-range remaining fields (datetime keeps them far below 100), the
formatted timestamp matches the anchored pattern of four digits, dash, two
digits, dash, two digits, T, two digits, colon, two digits, colon, two
digits, Z -- second precision, Z suffix, no sub-second component. -/
theorem timestamp_matches_format (d : UTCDateTime)
    (hy1 : 1000 ≤ d.year) (hy2 : d.year < 10000)
    (hmo : d.month < 100) (hda : d.day < 100) (hho : d.hour < 100)
    (hmi : d.minute < 100) (hse : d.second < 100) :
    matchesTsFormat (strftimeTimestamp d) = true := by
  have hda4 : ∀ n : Nat, (Nat.digitChar (n % 10)).isDigit = true :=
    fun n => digitChar_isDigit _ (by omega)
  have hd1 : (Nat.digitChar (d.year / 1000)).isDigit = true :=
    digitChar_isDigit _ (by omega)
  have hd5 : (Nat.digitChar (d.month / 10)).isDigit = true :=
    digitChar_isDigit _ (by omega)
  have hd6 : (Nat.digitChar (d.day / 10)).isDigit = true :=
    digitChar_isDigit _ (by omega)
  have hd7 : (Nat.digitChar (d.hour / 10)).isDigit = true :=
    digitChar_isDigit _ (by omega)
  have hd8 : (Nat.digitChar (d.minute / 10)).isDigit = true :=
    digitChar_isDigit _ (by omega)
  have hd9 : (Nat.digitChar (d.second / 10)).isDigit = true :=
    digitChar_isDigit _ (by omega)
  unfold strftimeTimestamp twoDigits
  rw [natDecimal_four_digits d.year hy1 hy2,
      if_pos hmo, if_pos hda, if_pos hho, if_pos hmi, if_pos hse]
  simp [matchesTsFormat, hda4, hd1, hd5, hd6, hd7, hd8, hd9]

/-- Witness for claim C7 at a concrete clock value. -/
theorem timestamp_matches_format_witness :
    matchesTsFormat (strftimeTimestamp nowW) = true :=
  timestamp_matches_format nowW (by decide) (by decide) (by decide)
    (by decide) (by decide) (by decide) (by decide)

/-! Claims about the run of main. -/

/-- Claim C5: when the source file is absent, main prints the
SourceNotFound message and stops: no client is constructed and no login,
upload, or delete call is attempted (the event trace is empty), and the
run ends normally with no traceback. -/
theorem missing_source_no_network (w : World) (a : Args) (h : w.source = none) :
    pyMain w a = ⟨[msgSourceNotFound], [], Outcome.normal⟩ := by
  unfold pyMain
  rw [h]

/-- Witness for claim C5 on a concrete world without the source file. -/
theorem missing_source_no_network_witness :
    w5.source = none
    ∧ pyMain w5 argsW = ⟨[msgSourceNotFound], [], Outcome.normal⟩ :=
  ⟨rfl, missing_source_no_network w5 argsW rfl⟩

/-- Claim C6: after a successful login, a first upload failing with an
OpFailedError whose message contains the already-exists marker is followed
by exactly one delete of the destination and, when the delete succeeds,
exactly one retried upload, after which the run stops whatever the retry
outcome; a failing delete stops the run with no retry; a first upload
failure without the marker triggers neither a delete nor a retry. -/
theorem conflict_recovery_events (w : World) (a : Args) (content key m : Str)
    (ksrc : CredSource)
    (hsrc : w.source = some (Except.ok content))
    (hcred : resolveCred w.env w.keyFile = CredResult.ok key ksrc)
    (hlog : w.loginResult = Except.ok ())
    (hup : w.upload1 = Except.error (PyExc.opFailed m)) :
    (containsSub conflictMarker m = true →
       (pyMain w a).events
         = [Event.login key,
            Event.uploadText a.destination (buildContent content (strftimeTimestamp w.now)),
            Event.delete a.destination]
           ++ (match w.deleteResult with
               | Except.ok _ =>
                 [Event.uploadText a.destination (buildContent content (strftimeTimestamp w.now))]
               | Except.error _ => []))
    ∧ (containsSub conflictMarker m = false →
       (pyMain w a).events
         = [Event.login key,
            Event.uploadText a.destination (buildContent content (strftimeTimestamp w.now))]) := by
  have hm : pyMain w a = afterCred w a key ksrc (Except.ok content) := by
    simp [pyMain, hsrc, hcred]
  constructor
  · intro h
    rw [hm]
    cases hdel : w.deleteResult with
    | ok u =>
      cases hu2 : w.upload2 with
      | ok v =>
        simp [afterCred, hlog, hup, handleExc, clauseOpFailed, h,
              conflictRecovery, hdel, hu2, finishWith, Option.orElse]
      | error ue =>
        simp [afterCred, hlog, hup, handleExc, clauseOpFailed, h,
              conflictRecovery, hdel, hu2, finishWith, Option.orElse]
    | error de =>
      simp [afterCred, hlog, hup, handleExc, clauseOpFailed, h,
            conflictRecovery, hdel, finishWith, Option.orElse]
  · intro h
    rw [hm]
    simp [afterCred, hlog, hup, handleExc, clauseOpFailed, h,
          finishWith, Option.orElse]

/-- Witness for claim C6: the concrete conflict run performs login, upload,
delete, retried upload, in that order and nothing else. -/
theorem conflict_recovery_events_witness :
    (pyMain w6 argsW).events
      = [Event.login ['k'], Event.uploadText argsW.destination doc6,
         Event.delete argsW.destination, Event.uploadText argsW.destination doc6] := by
  have h := conflict_recovery_events w6 argsW srcW ['k'] conflictMsgW
    CredSource.envVar rfl rfl rfl rfl
  simpa [w6, doc6, nowW] using h.1 (by decide)

/-- Claim C8: whatever the oracle outcomes, the run of main returns
normally -- every exception raised by a fallible step is matched by an
except clause and turned into printed output, and at least one line is
printed on every path. -/
theorem main_handles_all_failures (w : World) (a : Args) :
    (pyMain w a).outcome = Outcome.normal ∧ (pyMain w a).printed ≠ [] := by
  cases hs : w.source with
  | none => simp [pyMain, hs, msgSourceNotFound]
  | some sr =>
    cases hc : resolveCred w.env w.keyFile with
    | readError e => simp [pyMain, hs, hc, msgCredReadError]
    | missing => simp [pyMain, hs, hc, msgKeyMissing]
    | ok key ksrc =>
      have hm : pyMain w a = afterCred w a key ksrc sr := by
        simp [pyMain, hs, hc]
      rw [hm]
      cases sr with
      | error e =>
        cases hr : handleExc w a [] (PyExc.other e.1 e.2) with
        | none => exact absurd hr (handleExc_total w a [] (PyExc.other e.1 e.2))
        | some pe => simp [afterCred, finishWith, hr]
      | ok content =>
        cases hl : w.loginResult with
        | error e =>
          cases hr : handleExc w a (buildContent content (strftimeTimestamp w.now)) e with
          | none =>
            exact absurd hr
              (handleExc_total w a (buildContent content (strftimeTimestamp w.now)) e)
          | some pe => simp [afterCred, hl, finishWith, hr]
        | ok u =>
          cases hu : w.upload1 with
          | error e =>
            cases hr : handleExc w a (buildContent content (strftimeTimestamp w.now)) e with
            | none =>
              exact absurd hr
                (handleExc_total w a (buildContent content (strftimeTimestamp w.now)) e)
            | some pe => simp [afterCred, hl, hu, finishWith, hr]
          | ok v => simp [afterCred, hl, hu]

/-- Printed output of the guarded body does not depend on the key value:
the key reaches only the login call, never a print. -/
theorem afterCred_printed_key_indep (w : World) (a : Args) (k k' : Str)
    (s : CredSource) (sr : Except (Str × Str) Str) :
    (afterCred w a k s sr).printed = (afterCred w a k' s sr).printed := by
  cases sr with
  | error e => rfl
  | ok content =>
    cases hl : w.loginResult with
    | error e =>
      cases e with
      | opFailed m =>
        by_cases hc : containsSub conflictMarker m = true <;>
          simp [afterCred, hl, finishWith, handleExc, clauseOpFailed, hc,
                Option.orElse]
      | authError m =>
        simp [afterCred, hl, finishWith, handleExc, clauseOpFailed, clauseAuth,
              Option.orElse]
      | other ty m =>
        simp [afterCred, hl, finishWith, handleExc, clauseOpFailed, clauseAuth,
              clauseGeneric, Option.orElse]
    | ok u =>
      cases hu : w.upload1 with
      | error e =>
        cases e with
        | opFailed m =>
          by_cases hc : containsSub conflictMarker m = true <;>
            simp [afterCred, hl, hu, finishWith, handleExc, clauseOpFailed, hc,
                  Option.orElse]
        | authError m =>
          simp [afterCred, hl, hu, finishWith, handleExc, clauseOpFailed,
                clauseAuth, Option.orElse]
        | other ty m =>
          simp [afterCred, hl, hu, finishWith, handleExc, clauseOpFailed,
                clauseAuth, clauseGeneric, Option.orElse]
      | ok v => simp [afterCred, hl, hu]

/-- Claim C9: the printed output of main never depends on the credential
value -- two runs whose credential resolution succeeds from the same
source but with any two key values, all other oracle data equal, print
exactly the same lines. -/
theorem credential_value_noninterference (w : World) (a : Args)
    (env' : Option Str) (file' : Option (Except Str Str)) (k k' : Str)
    (s : CredSource)
    (h1 : resolveCred w.env w.keyFile = CredResult.ok k s)
    (h2 : resolveCred env' file' = CredResult.ok k' s) :
    (pyMain { w with env := env', keyFile := file' } a).printed
      = (pyMain w a).printed := by
  cases hs : w.source with
  | none => simp [pyMain, hs]
  | some sr =>
    have e2 : resolveCred ({ w with env := env', keyFile := file' } : World).env
        ({ w with env := env', keyFile := file' } : World).keyFile
        = CredResult.ok k' s := h2
    have e3 : afterCred { w with env := env', keyFile := file' } a k' s sr
        = afterCred w a k' s sr := rfl
    simp only [pyMain, hs, h1, e2, e3]
    exact afterCred_printed_key_indep w a k' k s sr

/-- Witness for claim C9: changing the key from the environment value a to
the environment value b changes nothing in the printed lines. -/
theorem credential_value_noninterference_witness :
    (pyMain { w9 with env := some ['b'], keyFile := none } argsW).printed
      = (pyMain w9 argsW).printed :=
  credential_value_noninterference w9 argsW (some ['b']) none ['a'] ['b']
    CredSource.envVar rfl rfl

/-- Claim C10: on the conflict-recovery path with a successful delete, the
run is exactly login, upload, delete, upload, and the content of the
retried upload is the very same document as the first attempt -- built
once from the single source read and the single clock reading, not rebuilt
between the attempts. -/
theorem retry_reuses_same_document (w : World) (a : Args) (content key m : Str)
    (ksrc : CredSource)
    (hsrc : w.source = some (Except.ok content))
    (hcred : resolveCred w.env w.keyFile = CredResult.ok key ksrc)
    (hlog : w.loginResult = Except.ok ())
    (hup : w.upload1 = Except.error (PyExc.opFailed m))
    (hmk : containsSub conflictMarker m = true)
    (hdel : w.deleteResult = Except.ok ()) :
    (pyMain w a).events
      = [Event.login key,
         Event.uploadText a.destination (buildContent content (strftimeTimestamp w.now)),
         Event.delete a.destination,
         Event.uploadText a.destination (buildContent content (strftimeTimestamp w.now))] := by
  have hm : pyMain w a = afterCred w a key ksrc (Except.ok content) := by
    simp [pyMain, hsrc, hcred]
  rw [hm]
  cases hu2 : w.upload2 with
  | ok v =>
    simp [afterCred, hlog, hup, handleExc, clauseOpFailed, hmk,
          conflictRecovery, hdel, hu2, finishWith, Option.orElse]
  | error ue =>
    simp [afterCred, hlog, hup, handleExc, clauseOpFailed, hmk,
          conflictRecovery, hdel, hu2, finishWith, Option.orElse]

/-- Witness for claim C10 on a concrete conflict run whose retry fails:
the retried upload still carries the identical document. -/
theorem retry_reuses_same_document_witness :
    (pyMain w10 argsW).events
      = [Event.login ['k'], Event.uploadText argsW.destination doc6,
         Event.delete argsW.destination, Event.uploadText argsW.destination doc6] := by
  simpa [w10, doc6, nowW] using
    retry_reuses_same_document w10 argsW srcW ['k'] conflictMsgW
      CredSource.envVar rfl rfl rfl rfl (by decide) rfl

end AcctForecast
